import Mathlib

/-!
Verification development for the swap request-to-transaction translator
(chain/token registry, request validator, swap transaction builder).

The TypeScript core is shallowly embedded below.  External collaborators
(the `@chrom-ar/utils` chain/token directory and the VeloraDEX SDK) are
parameters of the embedded operations: a `Directory` record for the
directory lookups and an `SdkModel` record for the pricing / building
collaborator.  JavaScript strings are Lean `String`s, JS numbers used for
amounts are exact rationals (float64 rounding is idealized away; the
validator only inspects NaN-ness and sign, where the idealization agrees
with JS away from astronomically small literals), and bigints are `Int`.
Thrown JS exceptions are `Except` errors.  `toUpperCase`/`toLowerCase`/
`trim` are modelled by ASCII character maps (`strUpper`/`strLower`/`jsTrim`).
-/

/-- JS truthiness of an optional string field: `undefined`/absent and `""` are falsy. -/
def truthyOptStr : Option String → Bool
  | none => false
  | some s => !(s == "")

/-- JS `x || d` for an optional string `x`: the first truthy value. -/
def jsOrStr (x : Option String) (d : String) : String :=
  match x with
  | some s => if s == "" then d else s
  | none => d

def isDigitChar (c : Char) : Bool := '0' ≤ c && c ≤ '9'

def digitVal (c : Char) : Nat := c.toNat - 48

/-- `toUpperCase`, via the ASCII `Char.toUpper` on the character list (the
byte-based `String.toUpper` does not reduce inside the kernel). -/
def strUpper (s : String) : String := String.mk (s.toList.map Char.toUpper)

/-- `toLowerCase`, via the ASCII `Char.toLower` on the character list. -/
def strLower (s : String) : String := String.mk (s.toList.map Char.toLower)

/-- Numeric value of a list of decimal digit characters, most significant first
(the empty list reads as 0, matching JS `BigInt("")`). -/
def decDigitsVal (l : List Char) : Nat := l.foldl (fun a c => a * 10 + digitVal c) 0

/-- `fraction.replace(/(0+)$/, '')`: strip trailing `'0'` characters. -/
def dropTrailingZeros : List Char → List Char
  | [] => []
  | c :: cs =>
    match dropTrailingZeros cs with
    | [] => if c = '0' then [] else [c]
    | r => c :: r

/-- Left-pad a digit list with `'0'` up to length `n` (JS `padStart(n, '0')`). -/
def padZeroLeft (l : List Char) (n : Nat) : List Char :=
  List.replicate (n - l.length) '0' ++ l

/-! ## A model of JS `Number(string)` (ECMAScript StringNumericLiteral) -/

/-- Result of JS `Number(...)` on a string: NaN, a signed infinity, or the
finite value `mantissa * 10 ^ exp10` (represented exactly, idealizing float64
rounding; kept in integer form so that the kernel can evaluate it). -/
inductive JSNum where
  | nan
  | inf (negative : Bool)
  | val (mantissa : ℤ) (exp10 : ℤ)
deriving DecidableEq

/-- StrWhiteSpace characters recognized by the `Number` coercion (the common ones). -/
def jsWhitespaceChar (c : Char) : Bool :=
  c == ' ' || c == '\t' || c == '\n' || c == '\r' ||
    c.toNat == 11 || c.toNat == 12 || c.toNat == 160 || c.toNat == 65279

/-- JS `String.prototype.trim`. -/
def jsTrim (s : String) : String :=
  String.mk (((s.toList.dropWhile jsWhitespaceChar).reverse.dropWhile jsWhitespaceChar).reverse)

/-- Optional ExponentPart `(e|E) sign? digits` at the end of a numeric literal;
`some e` is the exponent, `none` means the literal is malformed. -/
def parseExponentPart : List Char → Option ℤ
  | [] => some 0
  | c :: rest =>
    if c == 'e' || c == 'E' then
      match rest with
      | '+' :: ds => if !ds.isEmpty && ds.all isDigitChar then some ((decDigitsVal ds : ℤ)) else none
      | '-' :: ds => if !ds.isEmpty && ds.all isDigitChar then some (-(decDigitsVal ds : ℤ)) else none
      | ds => if !ds.isEmpty && ds.all isDigitChar then some ((decDigitsVal ds : ℤ)) else none
    else none

/-- Unsigned DecimalLiteral `digits [. digits] [exp]` or `. digits [exp]`,
as `(mantissa, exponent)` with value `mantissa * 10 ^ (exponent)`. -/
def parseDecimalBody (cs : List Char) : Option (ℕ × ℤ) :=
  let ip := cs.takeWhile isDigitChar
  let rest1 := cs.dropWhile isDigitChar
  if rest1.headD ' ' == '.' then
    let rest2 := rest1.tail
    let fp := rest2.takeWhile isDigitChar
    let rest3 := rest2.dropWhile isDigitChar
    if ip.isEmpty && fp.isEmpty then none
    else (parseExponentPart rest3).map (fun e =>
      (decDigitsVal ip * 10 ^ fp.length + decDigitsVal fp, e - (fp.length : ℤ)))
  else
    if ip.isEmpty then none
    else (parseExponentPart rest1).map (fun e => (decDigitsVal ip, e))

def hexDigitValue (c : Char) : Option Nat :=
  if isDigitChar c then some (digitVal c)
  else if 'a' ≤ c && c ≤ 'f' then some (c.toNat - 87)
  else if 'A' ≤ c && c ≤ 'F' then some (c.toNat - 55)
  else none

def octDigitValue (c : Char) : Option Nat :=
  if '0' ≤ c && c ≤ '7' then some (digitVal c) else none

def binDigitValue (c : Char) : Option Nat :=
  if c == '0' || c == '1' then some (digitVal c) else none

/-- Value of a radix literal body. -/
def radixVal (digitOf : Char → Option Nat) (base : Nat) (ds : List Char) : Option Nat :=
  if ds.isEmpty then none
  else
    ds.foldl (fun acc c =>
      match acc, digitOf c with
      | some a, some v => some (a * base + v)
      | _, _ => none) (some 0)

/-- Signed `Infinity` or DecimalLiteral. -/
def jsSignedDecimal (cs : List Char) : JSNum :=
  let sb : Bool × List Char :=
    match cs with
    | '-' :: rest => (true, rest)
    | '+' :: rest => (false, rest)
    | rest => (false, rest)
  if sb.2 == "Infinity".toList then JSNum.inf sb.1
  else
    match parseDecimalBody sb.2 with
    | some me => JSNum.val (if sb.1 then -(me.1 : ℤ) else (me.1 : ℤ)) me.2
    | none => JSNum.nan

/-- JS `Number(s)` on a string: trim, empty is 0, radix literals, otherwise a
signed decimal literal or `Infinity`; anything else is NaN. -/
def jsStrToNumber (s : String) : JSNum :=
  let cs := ((s.toList.dropWhile jsWhitespaceChar).reverse.dropWhile jsWhitespaceChar).reverse
  match cs with
  | [] => JSNum.val 0 0
  | '0' :: x :: ds =>
    if x == 'x' || x == 'X' then
      match radixVal hexDigitValue 16 ds with
      | some n => JSNum.val (n : ℤ) 0
      | none => JSNum.nan
    else if x == 'o' || x == 'O' then
      match radixVal octDigitValue 8 ds with
      | some n => JSNum.val (n : ℤ) 0
      | none => JSNum.nan
    else if x == 'b' || x == 'B' then
      match radixVal binDigitValue 2 ds with
      | some n => JSNum.val (n : ℤ) 0
      | none => JSNum.nan
    else jsSignedDecimal cs
  | _ => jsSignedDecimal cs

/-- `isNaN(Number(s)) || Number(s) <= 0`, the validator's amount test on a
non-empty string (`mantissa * 10 ^ exp10 ≤ 0` iff `mantissa ≤ 0`, since a
power of ten is positive). -/
def jsNumberNotPositive (s : String) : Bool :=
  match jsStrToNumber s with
  | JSNum.nan => true
  | JSNum.inf negative => negative
  | JSNum.val mantissa _ => decide (mantissa ≤ 0)

/-! ## Data model -/

/-- `SwapRequest` (src/types/index.ts): `mode?: 'market'` and the optional
slippage percentage are `Option`s, absent meaning `undefined`. -/
structure SwapRequest where
  amount : String
  fromToken : String
  toToken : String
  fromAddress : String
  fromChain : String
  mode : Option String := none
  slippage : Option ℚ := none
deriving DecidableEq

/-- `Transaction` (src/types/index.ts). `toAddr` is the source's `to` field
(`to` is a reserved token in Lean); `value` is produced as a string by the
builder; `gasPrice`/`gasLimit` are decimal strings when present. -/
structure Transaction where
  chainId : Nat
  toAddr : String
  value : String
  data : Option String := none
  gasPrice : Option String := none
  gasLimit : Option String := none
deriving DecidableEq

structure ChainInfo where
  id : Nat
  name : String
deriving DecidableEq

/-- The fields of the opaque route object the builder inspects: a destination
amount (absent or empty string is falsy) plus an opaque payload `tag`
distinguishing otherwise-equal objects. -/
structure PriceRouteObj where
  destAmount : Option String
  tag : Nat := 0
deriving DecidableEq

/-- The quote value returned by the pricing collaborator, as inspected via
`'market' in quote ? quote.market : quote`: either an object without a
`market` property (used as the price route itself) or an object whose
`market` property holds the route.  (A `market` property holding a
non-object value is not modelled; the code would reject it as an invalid
market quote.) -/
inductive QuoteObj where
  | route (r : PriceRouteObj)
  | marketWrapped (market : PriceRouteObj) (tag : Nat)
deriving DecidableEq

/-- `'market' in quote ? quote.market : quote`. -/
def QuoteObj.priceRoute : QuoteObj → PriceRouteObj
  | QuoteObj.route r => r
  | QuoteObj.marketWrapped m _ => m

/-- `SwapResponse`: the ordered transaction list plus the quote field
(which the code fills with the price route object). -/
structure SwapResponse where
  transactions : List Transaction
  quote : PriceRouteObj
deriving DecidableEq

/-- The `data` payload of a structured VeloraDEX API error response. -/
structure ApiErrorData where
  message : Option String
  errorField : Option String
deriving DecidableEq

/-- `error.response` of an axios error; `data` may be `undefined`. -/
structure AxiosResponse where
  data : Option ApiErrorData
deriving DecidableEq

/-- Thrown JS errors: a plain `new Error(message)`, or an axios transport
error with an optional structured response. -/
inductive JsError where
  | jsError (message : String)
  | axiosError (response : Option AxiosResponse)
deriving DecidableEq

/-- Arguments of `simpleSDK.quote.getQuote` (builder step 4). -/
structure QuoteParams where
  srcToken : String
  destToken : String
  amount : String
  userAddress : String
  srcDecimals : Nat
  destDecimals : Nat
  side : String
  mode : String
deriving DecidableEq

/-- Result object of `simpleSDK.swap.buildTx`; every field may be absent.
`toAddr` is the source's `to` field. -/
structure TxParams where
  toAddr : Option String
  data : Option String
  value : Option String
  gasPrice : Option Nat
  gas : Option Nat
deriving DecidableEq

/-- Arguments of `simpleSDK.swap.buildTx` (builder step 7). -/
structure BuildTxParams where
  srcToken : String
  destToken : String
  srcAmount : String
  slippage : ℚ
  priceRoute : PriceRouteObj
  userAddress : String
deriving DecidableEq

/-- The VeloraDEX SDK collaborator: each operation may throw (`Except.error`)
or return a possibly-null result. -/
structure SdkModel where
  getQuote : QuoteParams → Except JsError (Option QuoteObj)
  getSpender : Except JsError String
  buildTx : BuildTxParams → Except JsError (Option TxParams)

/-- The external `@chrom-ar/utils` chain/token directory: each lookup may
throw or return a possibly-null value.  (The utils' string-or-number chain
id return is absorbed into the interface as a number.) -/
structure Directory where
  chainId : String → Except Unit Nat
  tokenAddress : String → String → Except Unit (Option String)
  tokenDecimals : String → String → Except Unit (Option Nat)

/-! ## Chain/Token Registry (src/utils/helpers.ts and src/types/index.ts) -/

/-- `SUPPORTED_CHAINS` (src/types/index.ts). -/
def SUPPORTED_CHAINS : String → Option ChainInfo
  | "ETHEREUM" => some ⟨1, "Ethereum"⟩
  | "ARBITRUM" => some ⟨42161, "Arbitrum One"⟩
  | "OPTIMISM" => some ⟨10, "Optimism"⟩
  | "BASE" => some ⟨8453, "Base"⟩
  | "POLYGON" => some ⟨137, "Polygon"⟩
  | "AVALANCHE" => some ⟨43114, "Avalanche"⟩
  | "SEPOLIA" => some ⟨11155111, "Sepolia"⟩
  | "ARBITRUM_SEPOLIA" => some ⟨421614, "Arbitrum Sepolia"⟩
  | "BASE_SEPOLIA" => some ⟨84532, "Base Sepolia"⟩
  | "OPTIMISM_SEPOLIA" => some ⟨11155420, "Optimism Sepolia"⟩
  | _ => none

/-- `CHAIN_NAME_MAPPING` (src/utils/helpers.ts). -/
def CHAIN_NAME_MAPPING : String → Option String
  | "ETHEREUM" => some "ethereum"
  | "ARBITRUM" => some "arbitrum"
  | "OPTIMISM" => some "optimism"
  | "BASE" => some "base"
  | "POLYGON" => some "polygon"
  | "AVALANCHE" => some "avalanche"
  | "SEPOLIA" => some "sepolia"
  | "ARBITRUM_SEPOLIA" => some "arbitrum-sepolia"
  | "BASE_SEPOLIA" => some "base-sepolia"
  | "OPTIMISM_SEPOLIA" => some "optimism-sepolia"
  | _ => none

/-- `FALLBACK_TOKEN_ADDRESSES` (src/utils/helpers.ts). -/
def FALLBACK_TOKEN_ADDRESSES : String → Option (String → Option String)
  | "ethereum" => some fun sym =>
      match sym with
      | "USDC" => some "0xA0b86a33E6441031aAd3f2bEDf49EC5Bc2f42E45"
      | "DAI" => some "0x6B175474E89094C44Da98b954EedeAC495271d0F"
      | "USDT" => some "0xdAC17F958D2ee523a2206206994597C13D831ec7"
      | "ETH" => some "0xeeeeeeeeeeeeeeeeeeeeeeeeeeeeeeeeeeeeeeee"
      | "SRC" => some "0xSRC_TOKEN_ADDRESS"
      | "DEST" => some "0xDEST_TOKEN_ADDRESS"
      | _ => none
  | "arbitrum-sepolia" => some fun sym =>
      match sym with
      | "USDC" => some "0x75faf114eafb1BDbe2F0316DF893fd58CE46AA4d"
      | "USDT" => some "0x8b6a2D4Db73bA8A9fFD9b7D38A0D4D6A3e0fcAAD"
      | _ => none
  | "optimism-sepolia" => some fun sym =>
      match sym with
      | "USDC" => some "0x5fd84259d66Cd46123540766Be93DFE6D43130D7"
      | "USDT" => some "0x82a9d4A8Ce4B8C0bd8A2C60E8a8b6cD9e4D99e5F"
      | _ => none
  | "base-sepolia" => some fun sym =>
      match sym with
      | "USDC" => some "0x036CbD53842c5426634e7929541eC2318f3dCF7e"
      | _ => none
  | "sepolia" => some fun sym =>
      match sym with
      | "USDC" => some "0x1c7D4B196Cb0C7B01d743Fbc6116a902379C7238"
      | "USDT" => some "0xaA8E23Fb1079EA71e0a56F48a2aA51851D8433D0"
      | _ => none
  | _ => none

/-- `FALLBACK_TOKEN_DECIMALS` (src/utils/helpers.ts). -/
def FALLBACK_TOKEN_DECIMALS : String → Option (String → Option Nat)
  | "ethereum" => some fun sym =>
      match sym with
      | "USDC" => some 6
      | "DAI" => some 18
      | "USDT" => some 6
      | "ETH" => some 18
      | "SRC" => some 18
      | "DEST" => some 18
      | _ => none
  | "arbitrum-sepolia" => some fun sym =>
      match sym with
      | "USDC" => some 6
      | "USDT" => some 6
      | _ => none
  | "optimism-sepolia" => some fun sym =>
      match sym with
      | "USDC" => some 6
      | "USDT" => some 6
      | _ => none
  | "base-sepolia" => some fun sym =>
      match sym with
      | "USDC" => some 6
      | _ => none
  | "sepolia" => some fun sym =>
      match sym with
      | "USDC" => some 6
      | "USDT" => some 6
      | _ => none
  | _ => none

/-- `CHAIN_NAME_MAPPING[chainName.toUpperCase()] || chainName.toLowerCase()`
(every mapping value is a non-empty, hence truthy, string). -/
def normalizeChainName (chainName : String) : String :=
  (CHAIN_NAME_MAPPING (strUpper chainName)).getD (strLower chainName)

/-- Composite fallback-table decimals lookup:
`FALLBACK_TOKEN_DECIMALS[normalizedChainName] && FALLBACK_TOKEN_DECIMALS[normalizedChainName][SYMBOL]`. -/
def fallbackDecimalsLookup (normalizedChainName symbolUpper : String) : Option Nat :=
  match FALLBACK_TOKEN_DECIMALS normalizedChainName with
  | some table => table symbolUpper
  | none => none

/-- `getChainIdForNetwork` (src/utils/helpers.ts): external directory first,
then `SUPPORTED_CHAINS`, else `Unsupported chain`. -/
def getChainIdForNetwork (dir : Directory) (chainName : String) : Except JsError Nat :=
  match dir.chainId (normalizeChainName chainName) with
  | Except.ok chainId => Except.ok chainId
  | Except.error _ =>
    match SUPPORTED_CHAINS (strUpper chainName) with
    | some supportedChain => Except.ok supportedChain.id
    | none => Except.error (JsError.jsError ("Unsupported chain: " ++ chainName))

/-- `getTokenAddressForChain` (src/utils/helpers.ts): a falsy (null/absent or
empty) directory answer falls back to the local per-chain table; a still-falsy
result throws `Token ... not found`. -/
def getTokenAddressForChain (dir : Directory) (chainName tokenSymbol : String) :
    Except JsError String :=
  let normalizedChainName := normalizeChainName chainName
  let tokenAddress : Option String :=
    match dir.tokenAddress normalizedChainName (strUpper tokenSymbol) with
    | Except.ok v => v
    | Except.error _ => none
  let tokenAddress : Option String :=
    if !truthyOptStr tokenAddress then
      match FALLBACK_TOKEN_ADDRESSES normalizedChainName with
      | some table => table (strUpper tokenSymbol)
      | none => tokenAddress
    else tokenAddress
  if !truthyOptStr tokenAddress then
    Except.error (JsError.jsError
      ("Token " ++ tokenSymbol ++ " not found on chain " ++ chainName))
  else Except.ok (tokenAddress.getD "")

/-- `getTokenDecimalsForChain` (src/utils/helpers.ts): external directory, then
local fallback table, then the documented default policy (6 for `USDC`/`USDT`,
18 otherwise); never fails. -/
def getTokenDecimalsForChain (dir : Directory) (chainName tokenSymbol : String) : Nat :=
  let normalizedChainName := normalizeChainName chainName
  let decimals : Option Nat :=
    match dir.tokenDecimals normalizedChainName (strUpper tokenSymbol) with
    | Except.ok v => v
    | Except.error _ => none
  let decimals : Option Nat :=
    if decimals.isNone then fallbackDecimalsLookup normalizedChainName (strUpper tokenSymbol)
    else decimals
  match decimals with
  | some d => d
  | none => if strUpper tokenSymbol == "USDC" || strUpper tokenSymbol == "USDT" then 6 else 18

/-! ## Amount conversion: viem `parseUnits` and `getTokenAmount` -/

/-- Split an unsigned body per viem's decimal-string guard
`^([0-9]*)\.?([0-9]*)$`: `some (integer digits, fraction digits)` on a match,
else `none` (leading digits, then optionally a dot followed by digits only). -/
def decomposeDigitsAux (cs : List Char) : Option (List Char × List Char) :=
  let intDigits := cs.takeWhile isDigitChar
  let rest := cs.dropWhile isDigitChar
  if rest.isEmpty then some (intDigits, [])
  else if rest.headD ' ' == '.' && rest.tail.all isDigitChar then some (intDigits, rest.tail)
  else none

/-- Split per viem's decimal-string guard `^(-?)([0-9]*)\.?([0-9]*)$`:
`some (negative, integer digits, fraction digits)` on a match, else `none`. -/
def decomposeAmount (s : String) : Option (Bool × List Char × List Char) :=
  let negative := s.toList.headD ' ' == '-'
  let body := if negative then s.toList.tail else s.toList
  (decomposeDigitsAux body).map (fun p => (negative, p.1, p.2))

/-- `Math.round(Number('.' ++ l))` is 1: the fraction digits read as at least
one half (NaN on an empty list, which never rounds up). -/
def roundsUpToOne (l : List Char) : Bool :=
  !l.isEmpty && '5' ≤ l.headD '0'

def intSign (negative : Bool) (n : Nat) : Int :=
  if negative then -(n : Int) else (n : Int)

/-- viem `parseUnits(value, decimals)` (the builder's base-unit conversion):
validate against the decimal-string pattern, strip trailing fraction zeros,
round half-up past `decimals` digits, and read the concatenated digits as a
bigint; `none` models a thrown error (pattern mismatch, or JS `BigInt('-')`
on a sign with no digits at all when `decimals` is 0). -/
def parseUnits (value : String) (decimals : Nat) : Option Int :=
  match decomposeAmount value with
  | none => none
  | some (negative, intDigits, fracDigits) =>
    let fraction := dropTrailingZeros fracDigits
    if decimals = 0 then
      if roundsUpToOne fraction then
        some (intSign negative (decDigitsVal intDigits + 1))
      else if negative && intDigits.isEmpty then none
      else some (intSign negative (decDigitsVal intDigits))
    else if decimals < fraction.length then
      let left := fraction.take (decimals - 1)
      let unitDigit := digitVal ((fraction.drop (decimals - 1)).headD '0')
      let right := fraction.drop decimals
      let rounded := unitDigit + (if roundsUpToOne right then 1 else 0)
      let fraction2 :=
        if 9 < rounded then
          padZeroLeft ((Nat.repr (decDigitsVal left + 1)).toList ++ ['0']) (left.length + 1)
        else left ++ [Char.ofNat (48 + rounded)]
      let carry := decide (decimals < fraction2.length)
      let intVal := decDigitsVal intDigits + (if carry then 1 else 0)
      let fraction3 := (if carry then fraction2.drop 1 else fraction2).take decimals
      some (intSign negative (intVal * 10 ^ fraction3.length + decDigitsVal fraction3))
    else
      let fractionPadded := fraction ++ List.replicate (decimals - fraction.length) '0'
      some (intSign negative
        (decDigitsVal intDigits * 10 ^ fractionPadded.length + decDigitsVal fractionPadded))

/-- `getTokenAmount` (src/utils/helpers.ts): resolve decimals, then
`parseUnits(amount, decimals).toString()`; a parse failure throws
`Failed to parse token amount` (the `AmountParseError`). -/
def getTokenAmount (dir : Directory) (amount chainName tokenSymbol : String) :
    Except JsError String :=
  let decimals := getTokenDecimalsForChain dir chainName tokenSymbol
  match parseUnits amount decimals with
  | some parsed => Except.ok (toString parsed)
  | none => Except.error (JsError.jsError ("Failed to parse token amount: " ++ amount))

/-- `getTokenDecimals` alias (src/utils/helpers.ts). -/
def getTokenDecimals (dir : Directory) (chainName tokenSymbol : String) : Nat :=
  getTokenDecimalsForChain dir chainName tokenSymbol

/-- `getChainId` alias (src/utils/helpers.ts). -/
def getChainIdAlias (dir : Directory) (chainName : String) : Except JsError Nat :=
  getChainIdForNetwork dir chainName

/-- `getTokenAddress` alias (src/utils/helpers.ts). -/
def getTokenAddress (dir : Directory) (chainName tokenSymbol : String) : Except JsError String :=
  getTokenAddressForChain dir chainName tokenSymbol

/-! ## Request Validator (src/utils/helpers.ts) -/

/-- `/^0x[a-fA-F0-9]{40}$/.test(address)` (`isValidAddress`). -/
def isValidAddress (address : String) : Bool :=
  match address.toList with
  | '0' :: 'x' :: rest =>
    rest.length == 40 && rest.all (fun c =>
      isDigitChar c || ('a' ≤ c && c ≤ 'f') || ('A' ≤ c && c ≤ 'F'))
  | _ => false

structure ValidationResult where
  isValid : Bool
  errors : List String
deriving DecidableEq

/-- Check 1: `!amount || isNaN(Number(amount)) || Number(amount) <= 0`. -/
def amountErrors (amount : String) : List String :=
  if amount == "" || jsNumberNotPositive amount then
    ["Invalid amount: must be a positive number"]
  else []

/-- Check 2: `!fromToken || fromToken.trim() === ''`. -/
def fromTokenErrors (fromToken : String) : List String :=
  if fromToken == "" || jsTrim fromToken == "" then ["From token is required"] else []

/-- Check 3: `!toToken || toToken.trim() === ''`. -/
def toTokenErrors (toToken : String) : List String :=
  if toToken == "" || jsTrim toToken == "" then ["To token is required"] else []

/-- Check 4: `!fromAddress || !isValidAddress(fromAddress)`. -/
def fromAddressErrors (fromAddress : String) : List String :=
  if fromAddress == "" || !isValidAddress fromAddress then
    ["Invalid from address format"]
  else []

/-- Check 5: `!fromChain || !SUPPORTED_CHAINS[fromChain.toUpperCase()]`. -/
def chainErrors (fromChain : String) : List String :=
  if fromChain == "" || (SUPPORTED_CHAINS (strUpper fromChain)).isNone then
    ["Unsupported chain: " ++ fromChain]
  else []

/-- Checks 6/7: if chain and token are truthy and the chain is supported, the
token must resolve on that chain (a thrown resolution error is caught and
recorded as a validation error). -/
def tokenSupportErrors (dir : Directory) (fromChain token : String) : List String :=
  if fromChain == "" then []
  else if token == "" then []
  else
    match SUPPORTED_CHAINS (strUpper fromChain) with
    | none => []
    | some _ =>
      match getTokenAddressForChain dir fromChain token with
      | Except.ok _ => []
      | Except.error _ => ["Token " ++ token ++ " not supported on " ++ fromChain]

/-- `validateSwapRequest` (src/utils/helpers.ts): a total function (never
throws) returning the structured result; the error list is the concatenation
of the seven independent checks' contributions, in source order. -/
def validateSwapRequest (dir : Directory) (params : SwapRequest) : ValidationResult :=
  let errors :=
    amountErrors params.amount ++
    fromTokenErrors params.fromToken ++
    toTokenErrors params.toToken ++
    fromAddressErrors params.fromAddress ++
    chainErrors params.fromChain ++
    tokenSupportErrors dir params.fromChain params.fromToken ++
    tokenSupportErrors dir params.fromChain params.toToken
  { isValid := errors.isEmpty, errors := errors }

/-! ## Swap Transaction Builder (src/services/swapService.ts) -/

/-- The native-asset test of builder step 6 (negated guard of the approval
branch): the lowercased resolved source address equals the all-`e` or the
all-zero sentinel. -/
def isNativeToken (fromTokenAddress : String) : Bool :=
  strLower fromTokenAddress == "0xeeeeeeeeeeeeeeeeeeeeeeeeeeeeeeeeeeeeeeee" ||
    strLower fromTokenAddress == "0x0000000000000000000000000000000000000000"

/-- Modelled from the spec: the approval calldata is produced by viem
`encodeFunctionData` with `APPROVE_ABI` from src/utils/abis.ts, which is not
among the provided sources.  Following the spec's "calldata = encoded
`approve(spender, exactSourceAmount)`", this is the standard ABI encoding of
an ERC-20 `approve(address,uint256)` call: the 4-byte selector `0x095ea7b3`
followed by the 32-byte-padded spender address and amount. -/
def encodeApprove (spender amount : String) : String :=
  let spenderHex : List Char :=
    match spender.toList with
    | '0' :: 'x' :: rest => rest
    | other => other
  let amountHex := Nat.toDigits 16 (decDigitsVal (amount.toList.takeWhile isDigitChar))
  "0x095ea7b3" ++ String.mk (padZeroLeft (spenderHex.map Char.toLower) 64) ++
    String.mk (padZeroLeft amountHex 64)

/-- `error.response.data?.message || error.response.data?.error ||
'VeloraDEX API request failed'`. -/
def apiErrorMessage (response : AxiosResponse) : String :=
  jsOrStr (response.data.bind ApiErrorData.message)
    (jsOrStr (response.data.bind ApiErrorData.errorField) "VeloraDEX API request failed")

/-- The catch clause shared by `buildSwapTransaction` and `getSwapQuote`:
an axios error with a (truthy) response is replaced by a plain error carrying
the extracted API message; every other error is rethrown unchanged. -/
def unwrapAxiosError : JsError → JsError
  | JsError.axiosError (some response) => JsError.jsError (apiErrorMessage response)
  | e => e

/-- Apply the catch clause to the outcome of the `try` block. -/
def catchAxios {α : Type} : Except JsError α → Except JsError α
  | Except.error e => Except.error (unwrapAxiosError e)
  | Except.ok v => Except.ok v

/-- The approval transaction of builder step 6. -/
def mkApprovalTransaction (fromChainId : Nat) (fromTokenAddress spender fromTokenAmount : String) :
    Transaction :=
  { chainId := fromChainId
    toAddr := fromTokenAddress
    value := "0"
    data := some (encodeApprove spender fromTokenAmount)
    gasPrice := none
    gasLimit := none }

/-- The swap transaction of builder step 8: destination and calldata from the
collaborator's result, `value` defaulted to `"0"`, gas fields coerced to
decimal strings when present. -/
def mkSwapTransaction (fromChainId : Nat) (txParams : TxParams) : Transaction :=
  { chainId := fromChainId
    toAddr := txParams.toAddr.getD ""
    value := jsOrStr txParams.value "0"
    data := some (txParams.data.getD "")
    gasPrice := txParams.gasPrice.map Nat.repr
    gasLimit := txParams.gas.map Nat.repr }

/-- The argument record of the builder's `simpleSDK.quote.getQuote` call:
source/destination addresses, base-unit amount, wallet address, both decimal
counts, the fixed `SELL` side, and the requested mode (default `market`). -/
def quoteParamsFor (dir : Directory) (request : SwapRequest)
    (fromTokenAddress toTokenAddress fromTokenAmount : String) : QuoteParams :=
  { srcToken := fromTokenAddress
    destToken := toTokenAddress
    amount := fromTokenAmount
    userAddress := request.fromAddress
    srcDecimals := getTokenDecimals dir request.fromChain request.fromToken
    destDecimals := getTokenDecimals dir request.fromChain request.toToken
    side := "SELL"
    mode := request.mode.getD "market" }

/-- The argument record of the builder's `simpleSDK.swap.buildTx` call:
addresses, base-unit source amount, slippage in basis points (percentage
times 100, default 0.5%), the price route, and the wallet address. -/
def buildTxParamsFor (request : SwapRequest)
    (fromTokenAddress toTokenAddress fromTokenAmount : String)
    (priceRoute : PriceRouteObj) : BuildTxParams :=
  { srcToken := fromTokenAddress
    destToken := toTokenAddress
    srcAmount := fromTokenAmount
    slippage := (request.slippage.getD (1 / 2 : ℚ)) * 100
    priceRoute := priceRoute
    userAddress := request.fromAddress }

/-- The body of `SwapService.buildSwapTransaction` before its catch clause,
step for step: validate, resolve identifiers and the base-unit amount, fetch
the quote, extract the market price route and require a destination amount,
fetch the spender, build the approval transaction unless the source token is
native, call the external transaction builder, require destination and
calldata, and return approval-then-swap plus the price route as quote. -/
def buildSwapTransactionRaw (dir : Directory) (sdk : SdkModel) (request : SwapRequest) :
    Except JsError SwapResponse :=
  if !(validateSwapRequest dir request).isValid then
    Except.error (JsError.jsError
      ("Invalid request: " ++ String.intercalate ", " (validateSwapRequest dir request).errors))
  else
    match getChainIdAlias dir request.fromChain with
    | Except.error e => Except.error e
    | Except.ok fromChainId =>
      match getTokenAddress dir request.fromChain request.fromToken with
      | Except.error e => Except.error e
      | Except.ok fromTokenAddress =>
        match getTokenAddress dir request.fromChain request.toToken with
        | Except.error e => Except.error e
        | Except.ok toTokenAddress =>
          match getTokenAmount dir request.amount request.fromChain request.fromToken with
          | Except.error e => Except.error e
          | Except.ok fromTokenAmount =>
            match sdk.getQuote
                (quoteParamsFor dir request fromTokenAddress toTokenAddress fromTokenAmount) with
            | Except.error e => Except.error e
            | Except.ok none => Except.error (JsError.jsError "Failed to get quote from VeloraDEX")
            | Except.ok (some quote) =>
              if !truthyOptStr quote.priceRoute.destAmount then
                Except.error (JsError.jsError "Invalid market quote received from VeloraDEX")
              else
                match sdk.getSpender with
                | Except.error e => Except.error e
                | Except.ok spender =>
                  match sdk.buildTx
                      (buildTxParamsFor request fromTokenAddress toTokenAddress fromTokenAmount
                        quote.priceRoute) with
                  | Except.error e => Except.error e
                  | Except.ok none =>
                    Except.error (JsError.jsError "Failed to build swap transaction from VeloraDEX")
                  | Except.ok (some txParams) =>
                    if !(truthyOptStr txParams.toAddr && truthyOptStr txParams.data) then
                      Except.error (JsError.jsError "Failed to build swap transaction from VeloraDEX")
                    else
                      Except.ok
                        { transactions :=
                            (if isNativeToken fromTokenAddress then []
                             else [mkApprovalTransaction fromChainId fromTokenAddress spender
                                     fromTokenAmount]) ++
                              [mkSwapTransaction fromChainId txParams]
                          quote := quote.priceRoute }

/-- `SwapService.buildSwapTransaction`: the try block wrapped in the
axios-unwrapping catch clause. -/
def buildSwapTransaction (dir : Directory) (sdk : SdkModel) (request : SwapRequest) :
    Except JsError SwapResponse :=
  catchAxios (buildSwapTransactionRaw dir sdk request)

/-- The body of `SwapService.getSwapQuote` before its catch clause: validate,
resolve (in source order: chain id, base-unit amount, addresses, decimals),
fetch the quote, reject a null quote, and return the quote object raw. -/
def getSwapQuoteRaw (dir : Directory) (sdk : SdkModel) (request : SwapRequest) :
    Except JsError QuoteObj :=
  if !(validateSwapRequest dir request).isValid then
    Except.error (JsError.jsError
      ("Invalid request: " ++ String.intercalate ", " (validateSwapRequest dir request).errors))
  else
    match getChainIdAlias dir request.fromChain with
    | Except.error e => Except.error e
    | Except.ok _fromChainId =>
      match getTokenAmount dir request.amount request.fromChain request.fromToken with
      | Except.error e => Except.error e
      | Except.ok fromTokenAmount =>
        match getTokenAddress dir request.fromChain request.fromToken with
        | Except.error e => Except.error e
        | Except.ok fromTokenAddress =>
          match getTokenAddress dir request.fromChain request.toToken with
          | Except.error e => Except.error e
          | Except.ok toTokenAddress =>
            match sdk.getQuote
                (quoteParamsFor dir request fromTokenAddress toTokenAddress fromTokenAmount) with
            | Except.error e => Except.error e
            | Except.ok none => Except.error (JsError.jsError "Failed to get quote from VeloraDEX")
            | Except.ok (some quote) => Except.ok quote

/-- `SwapService.getSwapQuote`: the try block wrapped in the catch clause. -/
def getSwapQuote (dir : Directory) (sdk : SdkModel) (request : SwapRequest) :
    Except JsError QuoteObj :=
  catchAxios (getSwapQuoteRaw dir sdk request)

/-- `SwapService.validateTokens`: best-effort resolution of both symbols,
`false` on any failure. -/
def validateTokens (dir : Directory) (fromChain fromToken toToken : String) : Bool :=
  match getTokenAddress dir fromChain fromToken, getTokenAddress dir fromChain toToken with
  | Except.ok _, Except.ok _ => true
  | _, _ => false

/-- The fixed chain id the `SwapService` constructor passes to
`constructSimpleSDK` (`chainId: 1`, Ethereum mainnet), regardless of any
request's chain. -/
def constructorChainId : Nat := 1

/-! ## Concrete fixtures for witnesses and counterexamples -/

/-- A directory whose every lookup throws (forcing every local fallback). -/
def dirW : Directory :=
  { chainId := fun _ => Except.error ()
    tokenAddress := fun _ _ => Except.error ()
    tokenDecimals := fun _ _ => Except.error () }

/-- A well-formed ERC-20 swap request: 1 USDC to DAI on Ethereum. -/
def reqW : SwapRequest :=
  { amount := "1"
    fromToken := "USDC"
    toToken := "DAI"
    fromAddress := "0xd8dA6BF26964aF9D7eEd9e03E53415D37aA96045"
    fromChain := "ETHEREUM" }

/-- A plain (non-market-wrapped) quote carrying a destination amount. -/
def quoteW : QuoteObj := QuoteObj.route { destAmount := some "2000000" }

/-- A complete transaction-builder result. -/
def txpW : TxParams :=
  { toAddr := some "0x1F98431c8aD98523631AE4a59f267346ea31F984"
    data := some "0x1234"
    value := some "0"
    gasPrice := some 10000000000
    gas := some 200000 }

def spenderW : String := "0x6A000F20005980200259B80c5102003040001068"

/-- A collaborator that answers every call successfully. -/
def sdkW : SdkModel :=
  { getQuote := fun _ => Except.ok (some quoteW)
    getSpender := Except.ok spenderW
    buildTx := fun _ => Except.ok (some txpW) }

/-- The response `buildSwapTransaction dirW sdkW reqW` produces. -/
def respW : SwapResponse :=
  { transactions :=
      [mkApprovalTransaction 1 "0xA0b86a33E6441031aAd3f2bEDf49EC5Bc2f42E45" spenderW "1000000",
       mkSwapTransaction 1 txpW]
    quote := quoteW.priceRoute }

/-! ## C2: native-asset sentinel characterization -/

/-- Case-insensitive string equality, as the spec's "case-insensitive"
matching of the sentinel addresses reads. -/
def eqCaseInsensitive (a b : String) : Bool := strLower a == strLower b

/-- C2: inside `buildSwapTransaction`, a source token address is treated as
native (approval skipped) iff it equals, case-insensitively, the all-`e`
sentinel or the all-zero sentinel; no other address is treated as native. -/
theorem nativeToken_sentinel_characterization (addr : String) :
    isNativeToken addr = true ↔
      (eqCaseInsensitive addr "0xeeeeeeeeeeeeeeeeeeeeeeeeeeeeeeeeeeeeeeee" = true ∨
       eqCaseInsensitive addr "0x0000000000000000000000000000000000000000" = true) := by
  have he : strLower "0xeeeeeeeeeeeeeeeeeeeeeeeeeeeeeeeeeeeeeeee" =
      "0xeeeeeeeeeeeeeeeeeeeeeeeeeeeeeeeeeeeeeeee" := by decide
  have hz : strLower "0x0000000000000000000000000000000000000000" =
      "0x0000000000000000000000000000000000000000" := by decide
  simp [isNativeToken, eqCaseInsensitive, he, hz]

/-! ## C3: validator accumulates errors, never throws -/

/-- The spec's accumulation scenario: amount `"0"`, empty source token, and an
unsupported chain (destination token and wallet address well-formed). -/
def reqThreeFailures : SwapRequest :=
  { amount := "0"
    fromToken := ""
    toToken := "DAI"
    fromAddress := "0xd8dA6BF26964aF9D7eEd9e03E53415D37aA96045"
    fromChain := "UNSUPPORTED_CHAIN" }

/-- C3: the validator is a total function returning a structured
`{valid, errors}` result (it cannot throw), whose error list is the
concatenation of all applicable checks' independent contributions (no
short-circuiting), with `valid` iff that list is empty; on the request with
amount `"0"`, empty source token, and an unsupported chain it returns exactly
three pairwise-distinct error messages, whatever the external directory does. -/
theorem validateSwapRequest_accumulates_errors :
    (∀ (dir : Directory) (p : SwapRequest),
      validateSwapRequest dir p =
        { isValid := (amountErrors p.amount ++ fromTokenErrors p.fromToken ++
              toTokenErrors p.toToken ++ fromAddressErrors p.fromAddress ++
              chainErrors p.fromChain ++ tokenSupportErrors dir p.fromChain p.fromToken ++
              tokenSupportErrors dir p.fromChain p.toToken).isEmpty
          errors := amountErrors p.amount ++ fromTokenErrors p.fromToken ++
              toTokenErrors p.toToken ++ fromAddressErrors p.fromAddress ++
              chainErrors p.fromChain ++ tokenSupportErrors dir p.fromChain p.fromToken ++
              tokenSupportErrors dir p.fromChain p.toToken }) ∧
    (∀ (dir : Directory) (p : SwapRequest),
      (validateSwapRequest dir p).isValid = (validateSwapRequest dir p).errors.isEmpty) ∧
    (∀ dir : Directory,
      (validateSwapRequest dir reqThreeFailures).errors =
        ["Invalid amount: must be a positive number", "From token is required",
         "Unsupported chain: UNSUPPORTED_CHAIN"]) ∧
    ("Invalid amount: must be a positive number" ≠ "From token is required" ∧
     "Invalid amount: must be a positive number" ≠ "Unsupported chain: UNSUPPORTED_CHAIN" ∧
     "From token is required" ≠ "Unsupported chain: UNSUPPORTED_CHAIN") := by
  refine ⟨fun dir p => rfl, fun dir p => rfl, fun dir => by rfl, by decide, by decide, by decide⟩

/-! ## C4: decimals default policy -/

/-- C4: whenever neither the external directory nor the local fallback table
yields a decimals entry, decimals resolution cannot fail (it is a total
function) and applies the default policy: 6 for `USDC`/`USDT` (after
uppercasing), 18 for every other symbol. -/
theorem getTokenDecimalsForChain_default_policy
    (dir : Directory) (chainName tokenSymbol : String)
    (h1 : ∀ d : Nat,
      dir.tokenDecimals (normalizeChainName chainName) (strUpper tokenSymbol) ≠ Except.ok (some d))
    (h2 : fallbackDecimalsLookup (normalizeChainName chainName) (strUpper tokenSymbol) = none) :
    getTokenDecimalsForChain dir chainName tokenSymbol =
      if strUpper tokenSymbol == "USDC" || strUpper tokenSymbol == "USDT" then 6 else 18 := by
  unfold getTokenDecimalsForChain
  cases hd : dir.tokenDecimals (normalizeChainName chainName) (strUpper tokenSymbol) with
  | error e => simp [hd, h2]
  | ok v =>
    cases v with
    | none => simp [hd, h2]
    | some d => exact absurd hd (h1 d)

/-- C4 witness: with an always-throwing directory and a chain unknown to the
fallback tables, an unknown symbol defaults to 18 decimals and `USDT` to 6. -/
theorem getTokenDecimalsForChain_default_policy_witness :
    getTokenDecimalsForChain dirW "somechain" "WETH" = 18 ∧
    getTokenDecimalsForChain dirW "somechain" "usdt" = 6 := by
  constructor
  · rw [getTokenDecimalsForChain_default_policy dirW "somechain" "WETH"
      (fun d hd => by simp [dirW] at hd) (by decide)]
    decide
  · rw [getTokenDecimalsForChain_default_policy dirW "somechain" "usdt"
      (fun d hd => by simp [dirW] at hd) (by decide)]
    decide

/-! ## Inversion lemmas for the builder pipeline -/

theorem catchAxios_ok {α : Type} (x : Except JsError α) (v : α) :
    catchAxios x = Except.ok v ↔ x = Except.ok v := by
  cases x <;> simp [catchAxios]

theorem catchAxios_error {α : Type} (x : Except JsError α) (e : JsError)
    (h : x = Except.error e) : catchAxios x = Except.error (unwrapAxiosError e) := by
  rw [h]; rfl

/-- Everything a successful `buildSwapTransactionRaw` run certifies: the
validation verdict, every registry resolution, the collaborator calls made
with the resolved arguments, and the exact shape of the response. -/
theorem buildSwapTransactionRaw_ok
    (dir : Directory) (sdk : SdkModel) (request : SwapRequest) (resp : SwapResponse)
    (h : buildSwapTransactionRaw dir sdk request = Except.ok resp) :
    ∃ fromChainId fromTokenAddress toTokenAddress fromTokenAmount quote spender txParams,
      (validateSwapRequest dir request).isValid = true ∧
      getChainIdAlias dir request.fromChain = Except.ok fromChainId ∧
      getTokenAddress dir request.fromChain request.fromToken = Except.ok fromTokenAddress ∧
      getTokenAddress dir request.fromChain request.toToken = Except.ok toTokenAddress ∧
      getTokenAmount dir request.amount request.fromChain request.fromToken =
        Except.ok fromTokenAmount ∧
      sdk.getQuote (quoteParamsFor dir request fromTokenAddress toTokenAddress fromTokenAmount) =
        Except.ok (some quote) ∧
      truthyOptStr quote.priceRoute.destAmount = true ∧
      sdk.getSpender = Except.ok spender ∧
      sdk.buildTx (buildTxParamsFor request fromTokenAddress toTokenAddress fromTokenAmount
          quote.priceRoute) = Except.ok (some txParams) ∧
      truthyOptStr txParams.toAddr = true ∧ truthyOptStr txParams.data = true ∧
      resp = { transactions :=
                 (if isNativeToken fromTokenAddress then []
                  else [mkApprovalTransaction fromChainId fromTokenAddress spender
                          fromTokenAmount]) ++
                   [mkSwapTransaction fromChainId txParams]
               quote := quote.priceRoute } := by
  unfold buildSwapTransactionRaw at h
  split at h
  · exact absurd h (by simp)
  next hvalid =>
    split at h
    next e he => exact absurd h (by simp)
    next fromChainId hcid =>
      split at h
      next e he => exact absurd h (by simp)
      next fromTokenAddress haddrF =>
        split at h
        next e he => exact absurd h (by simp)
        next toTokenAddress haddrT =>
          split at h
          next e he => exact absurd h (by simp)
          next fromTokenAmount hamt =>
            split at h
            next e he => exact absurd h (by simp)
            next hq => exact absurd h (by simp)
            next quote hq =>
              split at h
              · exact absurd h (by simp)
              next hdest =>
                split at h
                next e he => exact absurd h (by simp)
                next spender hsp =>
                  split at h
                  next e he => exact absurd h (by simp)
                  next hb => exact absurd h (by simp)
                  next txParams hb =>
                    split at h
                    · exact absurd h (by simp)
                    next htd =>
                      refine ⟨fromChainId, fromTokenAddress, toTokenAddress, fromTokenAmount,
                        quote, spender, txParams, ?_, hcid, haddrF, haddrT, hamt, hq, ?_, hsp,
                        hb, ?_, ?_, ?_⟩
                      · simpa using hvalid
                      · simpa using hdest
                      · have h2 := htd
                        simp at h2
                        exact h2.1
                      · have h2 := htd
                        simp at h2
                        exact h2.2
                      · exact (Except.ok.injEq _ _ ▸ h).symm

/-- Everything a successful `getSwapQuoteRaw` run certifies: validation,
resolutions, and the raw quote returned exactly as the collaborator produced
it. -/
theorem getSwapQuoteRaw_ok
    (dir : Directory) (sdk : SdkModel) (request : SwapRequest) (quote : QuoteObj)
    (h : getSwapQuoteRaw dir sdk request = Except.ok quote) :
    ∃ fromChainId fromTokenAddress toTokenAddress fromTokenAmount,
      (validateSwapRequest dir request).isValid = true ∧
      getChainIdAlias dir request.fromChain = Except.ok fromChainId ∧
      getTokenAmount dir request.amount request.fromChain request.fromToken =
        Except.ok fromTokenAmount ∧
      getTokenAddress dir request.fromChain request.fromToken = Except.ok fromTokenAddress ∧
      getTokenAddress dir request.fromChain request.toToken = Except.ok toTokenAddress ∧
      sdk.getQuote (quoteParamsFor dir request fromTokenAddress toTokenAddress fromTokenAmount) =
        Except.ok (some quote) := by
  unfold getSwapQuoteRaw at h
  split at h
  · exact absurd h (by simp)
  next hvalid =>
    split at h
    next e he => exact absurd h (by simp)
    next fromChainId hcid =>
      split at h
      next e he => exact absurd h (by simp)
      next fromTokenAmount hamt =>
        split at h
        next e he => exact absurd h (by simp)
        next fromTokenAddress haddrF =>
          split at h
          next e he => exact absurd h (by simp)
          next toTokenAddress haddrT =>
            split at h
            next e he => exact absurd h (by simp)
            next hq => exact absurd h (by simp)
            next q hq =>
              refine ⟨fromChainId, fromTokenAddress, toTokenAddress, fromTokenAmount,
                by simpa using hvalid, hcid, hamt, haddrF, haddrT, ?_⟩
              have : q = quote := by simpa using h
              rw [← this]; exact hq

/-! ## C1: transaction count and ordering -/

/-- C1: whenever `buildSwapTransaction` succeeds, if the resolved source token
address is not a native-asset sentinel the returned list is exactly the
approval transaction followed by the swap transaction (length two, approval
first); if it is a recognized sentinel, the list is exactly the swap
transaction (length one).  The approval, when present, therefore always
precedes the swap. -/
theorem buildSwapTransaction_count_and_order
    (dir : Directory) (sdk : SdkModel) (request : SwapRequest) (resp : SwapResponse)
    (h : buildSwapTransaction dir sdk request = Except.ok resp) :
    ∃ fromTokenAddress fromChainId spender fromTokenAmount txParams,
      getTokenAddress dir request.fromChain request.fromToken = Except.ok fromTokenAddress ∧
      getChainIdAlias dir request.fromChain = Except.ok fromChainId ∧
      sdk.getSpender = Except.ok spender ∧
      (isNativeToken fromTokenAddress = false →
        resp.transactions =
          [mkApprovalTransaction fromChainId fromTokenAddress spender fromTokenAmount,
           mkSwapTransaction fromChainId txParams] ∧
        resp.transactions.length = 2) ∧
      (isNativeToken fromTokenAddress = true →
        resp.transactions = [mkSwapTransaction fromChainId txParams] ∧
        resp.transactions.length = 1) := by
  rw [buildSwapTransaction, catchAxios_ok] at h
  obtain ⟨fromChainId, fromTokenAddress, toTokenAddress, fromTokenAmount, quote, spender,
    txParams, _, hcid, haddrF, _, _, _, _, hsp, _, _, _, hresp⟩ :=
    buildSwapTransactionRaw_ok dir sdk request resp h
  refine ⟨fromTokenAddress, fromChainId, spender, fromTokenAmount, txParams,
    haddrF, hcid, hsp, ?_, ?_⟩
  · intro hn
    rw [hresp]
    simp [hn]
  · intro hn
    rw [hresp]
    simp [hn]

/-- C1 witness: a concrete non-native (USDC to DAI) run produces exactly the
approval-then-swap pair. -/
theorem buildSwapTransaction_count_and_order_witness :
    ∃ fromTokenAddress fromChainId spender fromTokenAmount txParams,
      getTokenAddress dirW reqW.fromChain reqW.fromToken = Except.ok fromTokenAddress ∧
      getChainIdAlias dirW reqW.fromChain = Except.ok fromChainId ∧
      sdkW.getSpender = Except.ok spender ∧
      (isNativeToken fromTokenAddress = false →
        respW.transactions =
          [mkApprovalTransaction fromChainId fromTokenAddress spender fromTokenAmount,
           mkSwapTransaction fromChainId txParams] ∧
        respW.transactions.length = 2) ∧
      (isNativeToken fromTokenAddress = true →
        respW.transactions = [mkSwapTransaction fromChainId txParams] ∧
        respW.transactions.length = 1) :=
  buildSwapTransaction_count_and_order dirW sdkW reqW respW (by rfl)

/-! ## C10: a single chain id, resolved from the request -/

/-- C10: every transaction a successful `buildSwapTransaction` returns
(approval and swap alike) carries the same chain id, the one resolved from the
request's `fromChain` — even though the `SwapService` constructor configures
its SDK session with the fixed chain id 1 (Ethereum mainnet). -/
theorem transactions_share_resolved_chainId
    (dir : Directory) (sdk : SdkModel) (request : SwapRequest) (resp : SwapResponse)
    (h : buildSwapTransaction dir sdk request = Except.ok resp) :
    (∃ fromChainId, getChainIdAlias dir request.fromChain = Except.ok fromChainId ∧
      ∀ tx ∈ resp.transactions, tx.chainId = fromChainId) ∧
    constructorChainId = 1 := by
  rw [buildSwapTransaction, catchAxios_ok] at h
  obtain ⟨fromChainId, fromTokenAddress, toTokenAddress, fromTokenAmount, quote, spender,
    txParams, _, hcid, _, _, _, _, _, _, _, _, _, hresp⟩ :=
    buildSwapTransactionRaw_ok dir sdk request resp h
  refine ⟨⟨fromChainId, hcid, ?_⟩, rfl⟩
  intro tx htx
  rw [hresp] at htx
  cases hn : isNativeToken fromTokenAddress
  · simp [hn] at htx
    rcases htx with rfl | rfl <;> rfl
  · simp [hn] at htx
    subst htx
    rfl

/-- C10 witness: the concrete Ethereum run resolves chain id 1 and both
returned transactions carry it. -/
theorem transactions_share_resolved_chainId_witness :
    (∃ fromChainId, getChainIdAlias dirW reqW.fromChain = Except.ok fromChainId ∧
      ∀ tx ∈ respW.transactions, tx.chainId = fromChainId) ∧
    constructorChainId = 1 :=
  transactions_share_resolved_chainId dirW sdkW reqW respW (by rfl)

/-! ## C6: what is passed through to the response and to `buildTx` -/

/-- A market price route with an opaque payload. -/
def routeM : PriceRouteObj := { destAmount := some "2000000", tag := 5 }

/-- A quote whose `market` property holds `routeM` (the shape the `market`
trading mode produces). -/
def quoteM : QuoteObj := QuoteObj.marketWrapped routeM 9

/-- A collaborator answering with the market-wrapped quote. -/
def sdkM : SdkModel :=
  { getQuote := fun _ => Except.ok (some quoteM)
    getSpender := Except.ok spenderW
    buildTx := fun _ => Except.ok (some txpW) }

/-- The response `buildSwapTransaction dirW sdkM reqW` produces. -/
def respM : SwapResponse :=
  { transactions :=
      [mkApprovalTransaction 1 "0xA0b86a33E6441031aAd3f2bEDf49EC5Bc2f42E45" spenderW "1000000",
       mkSwapTransaction 1 txpW]
    quote := routeM }

/-- The quote-call arguments of the `dirW`/`reqW` runs. -/
def qpW : QuoteParams :=
  quoteParamsFor dirW reqW "0xA0b86a33E6441031aAd3f2bEDf49EC5Bc2f42E45"
    "0x6B175474E89094C44Da98b954EedeAC495271d0F" "1000000"

/-- C6 counterexample: on a successful run whose pricing collaborator returns
a quote carrying a `market` property, the response's quote field is the
`market` sub-object, not the quote object that was obtained — so the claim
that the obtained quote object itself is passed through unmodified fails. -/
theorem quote_passthrough_refuted :
    sdkM.getQuote qpW = Except.ok (some quoteM) ∧
    buildSwapTransaction dirW sdkM reqW = Except.ok respM ∧
    QuoteObj.route respM.quote ≠ quoteM ∧
    quoteM.priceRoute = routeM ∧ respM.quote = routeM := by
  refine ⟨rfl, by rfl, by decide, rfl, rfl⟩

/-- C6 amended: for every successful `buildSwapTransaction`, the price route
derived from the obtained quote — the quote's `market` field when present,
otherwise the quote object itself — is passed through unmodified, as the same
object, both to the response's quote field and to the transaction-building
call. -/
theorem priceRoute_passthrough
    (dir : Directory) (sdk : SdkModel) (request : SwapRequest) (resp : SwapResponse)
    (h : buildSwapTransaction dir sdk request = Except.ok resp) :
    ∃ fromTokenAddress toTokenAddress fromTokenAmount quote txParams,
      sdk.getQuote (quoteParamsFor dir request fromTokenAddress toTokenAddress fromTokenAmount) =
        Except.ok (some quote) ∧
      resp.quote = quote.priceRoute ∧
      sdk.buildTx (buildTxParamsFor request fromTokenAddress toTokenAddress fromTokenAmount
          quote.priceRoute) = Except.ok (some txParams) ∧
      (buildTxParamsFor request fromTokenAddress toTokenAddress fromTokenAmount
          quote.priceRoute).priceRoute = quote.priceRoute := by
  rw [buildSwapTransaction, catchAxios_ok] at h
  obtain ⟨fromChainId, fromTokenAddress, toTokenAddress, fromTokenAmount, quote, spender,
    txParams, _, _, _, _, _, hq, _, _, hb, _, _, hresp⟩ :=
    buildSwapTransactionRaw_ok dir sdk request resp h
  exact ⟨fromTokenAddress, toTokenAddress, fromTokenAmount, quote, txParams, hq,
    by rw [hresp], hb, rfl⟩

/-- C6 amended, witness: the market-wrapped concrete run. -/
theorem priceRoute_passthrough_witness :
    ∃ fromTokenAddress toTokenAddress fromTokenAmount quote txParams,
      sdkM.getQuote (quoteParamsFor dirW reqW fromTokenAddress toTokenAddress fromTokenAmount) =
        Except.ok (some quote) ∧
      respM.quote = quote.priceRoute ∧
      sdkM.buildTx (buildTxParamsFor reqW fromTokenAddress toTokenAddress fromTokenAmount
          quote.priceRoute) = Except.ok (some txParams) ∧
      (buildTxParamsFor reqW fromTokenAddress toTokenAddress fromTokenAmount
          quote.priceRoute).priceRoute = quote.priceRoute :=
  priceRoute_passthrough dirW sdkM reqW respM (by rfl)

/-! ## C8: the approval transaction's fields -/

/-- C8: whenever a successful `buildSwapTransaction` run constructs an
approval transaction (non-native source token), that transaction is the head
of the list and has destination the resolved source token contract, value the
string `"0"`, and calldata the ABI encoding of
`approve(spender, baseUnitAmount)`, where the spender is the address the
external collaborator returned and the amount is the very base-unit amount
passed to both the quote call and the build call. -/
theorem approval_transaction_fields
    (dir : Directory) (sdk : SdkModel) (request : SwapRequest) (resp : SwapResponse)
    (h : buildSwapTransaction dir sdk request = Except.ok resp)
    (fromTokenAddress : String)
    (haddr : getTokenAddress dir request.fromChain request.fromToken =
      Except.ok fromTokenAddress)
    (hnonnative : isNativeToken fromTokenAddress = false) :
    ∃ fromChainId toTokenAddress fromTokenAmount spender quote txParams,
      getChainIdAlias dir request.fromChain = Except.ok fromChainId ∧
      getTokenAmount dir request.amount request.fromChain request.fromToken =
        Except.ok fromTokenAmount ∧
      sdk.getSpender = Except.ok spender ∧
      resp.transactions.head? = some
        { chainId := fromChainId
          toAddr := fromTokenAddress
          value := "0"
          data := some (encodeApprove spender fromTokenAmount)
          gasPrice := none
          gasLimit := none } ∧
      sdk.getQuote (quoteParamsFor dir request fromTokenAddress toTokenAddress fromTokenAmount) =
        Except.ok (some quote) ∧
      (quoteParamsFor dir request fromTokenAddress toTokenAddress fromTokenAmount).amount =
        fromTokenAmount ∧
      sdk.buildTx (buildTxParamsFor request fromTokenAddress toTokenAddress fromTokenAmount
          quote.priceRoute) = Except.ok (some txParams) ∧
      (buildTxParamsFor request fromTokenAddress toTokenAddress fromTokenAmount
          quote.priceRoute).srcAmount = fromTokenAmount := by
  rw [buildSwapTransaction, catchAxios_ok] at h
  obtain ⟨fromChainId, fromTokenAddress2, toTokenAddress, fromTokenAmount, quote, spender,
    txParams, _, hcid, haddrF, _, hamt, hq, _, hsp, hb, _, _, hresp⟩ :=
    buildSwapTransactionRaw_ok dir sdk request resp h
  have haddr2 : fromTokenAddress2 = fromTokenAddress := by
    have := haddrF.symm.trans haddr
    simpa using this
  subst haddr2
  refine ⟨fromChainId, toTokenAddress, fromTokenAmount, spender, quote, txParams,
    hcid, hamt, hsp, ?_, hq, rfl, hb, rfl⟩
  rw [hresp]
  simp [hnonnative, mkApprovalTransaction]

/-- C8 witness: the concrete USDC-to-DAI run's approval transaction. -/
theorem approval_transaction_fields_witness :
    ∃ fromChainId toTokenAddress fromTokenAmount spender quote txParams,
      getChainIdAlias dirW reqW.fromChain = Except.ok fromChainId ∧
      getTokenAmount dirW reqW.amount reqW.fromChain reqW.fromToken =
        Except.ok fromTokenAmount ∧
      sdkW.getSpender = Except.ok spender ∧
      respW.transactions.head? = some
        { chainId := fromChainId
          toAddr := "0xA0b86a33E6441031aAd3f2bEDf49EC5Bc2f42E45"
          value := "0"
          data := some (encodeApprove spender fromTokenAmount)
          gasPrice := none
          gasLimit := none } ∧
      sdkW.getQuote (quoteParamsFor dirW reqW "0xA0b86a33E6441031aAd3f2bEDf49EC5Bc2f42E45"
          toTokenAddress fromTokenAmount) = Except.ok (some quote) ∧
      (quoteParamsFor dirW reqW "0xA0b86a33E6441031aAd3f2bEDf49EC5Bc2f42E45"
          toTokenAddress fromTokenAmount).amount = fromTokenAmount ∧
      sdkW.buildTx (buildTxParamsFor reqW "0xA0b86a33E6441031aAd3f2bEDf49EC5Bc2f42E45"
          toTokenAddress fromTokenAmount quote.priceRoute) = Except.ok (some txParams) ∧
      (buildTxParamsFor reqW "0xA0b86a33E6441031aAd3f2bEDf49EC5Bc2f42E45"
          toTokenAddress fromTokenAmount quote.priceRoute).srcAmount = fromTokenAmount :=
  approval_transaction_fields dirW sdkW reqW respW (by rfl)
    "0xA0b86a33E6441031aAd3f2bEDf49EC5Bc2f42E45" (by rfl) (by decide)

/-! ## C7: what getSwapQuote checks and returns -/

/-- A quote lacking any destination amount. -/
def quoteNoDest : QuoteObj := QuoteObj.route { destAmount := none, tag := 3 }

/-- A collaborator returning the destination-amount-less quote. -/
def sdkNoDest : SdkModel :=
  { getQuote := fun _ => Except.ok (some quoteNoDest)
    getSpender := Except.ok spenderW
    buildTx := fun _ => Except.ok (some txpW) }

/-- A collaborator whose pricing call returns a null result. -/
def sdkNullQuote : SdkModel :=
  { getQuote := fun _ => Except.ok none
    getSpender := Except.ok spenderW
    buildTx := fun _ => Except.ok (some txpW) }

/-- C7 counterexample: the pricing collaborator returns a result that lacks a
destination amount, yet `getSwapQuote` succeeds and returns that result raw
instead of failing with a quote-unavailable error (the destination-amount
check of the builder's step 4 is absent from `getSwapQuote`). -/
theorem getSwapQuote_missing_destAmount_not_rejected :
    quoteNoDest.priceRoute.destAmount = none ∧
    truthyOptStr quoteNoDest.priceRoute.destAmount = false ∧
    getSwapQuote dirW sdkNoDest reqW = Except.ok quoteNoDest := by
  refine ⟨rfl, rfl, by rfl⟩

/-- C7 amended: `getSwapQuote` performs validation, registry resolution, and
quote retrieval only, returning the raw quote; it fails with the
quote-unavailable error when the collaborator returns a null result, but —
unlike the builder's step 4 — a result that merely lacks a destination amount
is not rejected: it is returned as-is. -/
theorem getSwapQuote_steps (dir : Directory) (sdk : SdkModel) (request : SwapRequest) :
    ((validateSwapRequest dir request).isValid = false →
      getSwapQuote dir sdk request = Except.error (JsError.jsError
        ("Invalid request: " ++
          String.intercalate ", " (validateSwapRequest dir request).errors))) ∧
    (∀ quote, getSwapQuote dir sdk request = Except.ok quote →
      ∃ fromChainId fromTokenAddress toTokenAddress fromTokenAmount,
        (validateSwapRequest dir request).isValid = true ∧
        getChainIdAlias dir request.fromChain = Except.ok fromChainId ∧
        getTokenAmount dir request.amount request.fromChain request.fromToken =
          Except.ok fromTokenAmount ∧
        getTokenAddress dir request.fromChain request.fromToken =
          Except.ok fromTokenAddress ∧
        getTokenAddress dir request.fromChain request.toToken = Except.ok toTokenAddress ∧
        sdk.getQuote (quoteParamsFor dir request fromTokenAddress toTokenAddress
          fromTokenAmount) = Except.ok (some quote)) ∧
    (∀ fromChainId fromTokenAddress toTokenAddress fromTokenAmount,
      (validateSwapRequest dir request).isValid = true →
      getChainIdAlias dir request.fromChain = Except.ok fromChainId →
      getTokenAmount dir request.amount request.fromChain request.fromToken =
        Except.ok fromTokenAmount →
      getTokenAddress dir request.fromChain request.fromToken = Except.ok fromTokenAddress →
      getTokenAddress dir request.fromChain request.toToken = Except.ok toTokenAddress →
      sdk.getQuote (quoteParamsFor dir request fromTokenAddress toTokenAddress
        fromTokenAmount) = Except.ok none →
      getSwapQuote dir sdk request =
        Except.error (JsError.jsError "Failed to get quote from VeloraDEX")) := by
  refine ⟨?_, ?_, ?_⟩
  · intro hvalid
    rw [getSwapQuote]
    have : getSwapQuoteRaw dir sdk request = Except.error (JsError.jsError
        ("Invalid request: " ++
          String.intercalate ", " (validateSwapRequest dir request).errors)) := by
      unfold getSwapQuoteRaw
      rw [if_pos]
      rw [hvalid]
      rfl
    rw [this]
    rfl
  · intro quote h
    rw [getSwapQuote, catchAxios_ok] at h
    exact getSwapQuoteRaw_ok dir sdk request quote h
  · intro fromChainId fromTokenAddress toTokenAddress fromTokenAmount hvalid hcid hamt
      haddrF haddrT hq
    rw [getSwapQuote]
    have : getSwapQuoteRaw dir sdk request =
        Except.error (JsError.jsError "Failed to get quote from VeloraDEX") := by
      unfold getSwapQuoteRaw
      rw [if_neg (by rw [hvalid]; simp)]
      simp only [hcid, hamt, haddrF, haddrT, hq]
    rw [this]
    rfl

/-- C7 amended, witness: a null quote makes the concrete run fail with the
quote-unavailable error, and the destination-amount-less quote is returned
raw.  Both branches are instances of the amended theorem. -/
theorem getSwapQuote_steps_witness :
    getSwapQuote dirW sdkNullQuote reqW =
      Except.error (JsError.jsError "Failed to get quote from VeloraDEX") ∧
    ∃ fromChainId fromTokenAddress toTokenAddress fromTokenAmount,
      (validateSwapRequest dirW reqW).isValid = true ∧
      getChainIdAlias dirW reqW.fromChain = Except.ok fromChainId ∧
      getTokenAmount dirW reqW.amount reqW.fromChain reqW.fromToken =
        Except.ok fromTokenAmount ∧
      getTokenAddress dirW reqW.fromChain reqW.fromToken = Except.ok fromTokenAddress ∧
      getTokenAddress dirW reqW.fromChain reqW.toToken = Except.ok toTokenAddress ∧
      sdkNoDest.getQuote (quoteParamsFor dirW reqW fromTokenAddress toTokenAddress
        fromTokenAmount) = Except.ok (some quoteNoDest) :=
  ⟨(getSwapQuote_steps dirW sdkNullQuote reqW).2.2 1
      "0xA0b86a33E6441031aAd3f2bEDf49EC5Bc2f42E45"
      "0x6B175474E89094C44Da98b954EedeAC495271d0F" "1000000"
      (by rfl) (by rfl) (by rfl) (by rfl) (by rfl) (by rfl),
   (getSwapQuote_steps dirW sdkNoDest reqW).2.1 quoteNoDest (by rfl)⟩

/-! ## C9: surfacing structured API errors -/

/-- C9: every error raised during `buildSwapTransaction` or `getSwapQuote`
passes through the catch clause: a transport-layer (axios) failure carrying a
response payload is surfaced as the payload's embedded `message` field or,
failing that, its `error` field, in preference to the generic transport
string; every other error propagates unchanged. -/
theorem external_api_error_surfacing :
    (∀ (dir : Directory) (sdk : SdkModel) (request : SwapRequest) (e : JsError),
      buildSwapTransactionRaw dir sdk request = Except.error e →
      buildSwapTransaction dir sdk request = Except.error (unwrapAxiosError e)) ∧
    (∀ (dir : Directory) (sdk : SdkModel) (request : SwapRequest) (e : JsError),
      getSwapQuoteRaw dir sdk request = Except.error e →
      getSwapQuote dir sdk request = Except.error (unwrapAxiosError e)) ∧
    (∀ (response : AxiosResponse) (m : String),
      response.data.bind ApiErrorData.message = some m → m ≠ "" →
      unwrapAxiosError (JsError.axiosError (some response)) = JsError.jsError m) ∧
    (∀ (response : AxiosResponse) (em : String),
      truthyOptStr (response.data.bind ApiErrorData.message) = false →
      response.data.bind ApiErrorData.errorField = some em → em ≠ "" →
      unwrapAxiosError (JsError.axiosError (some response)) = JsError.jsError em) ∧
    (∀ (response : AxiosResponse),
      truthyOptStr (response.data.bind ApiErrorData.message) = false →
      truthyOptStr (response.data.bind ApiErrorData.errorField) = false →
      unwrapAxiosError (JsError.axiosError (some response)) =
        JsError.jsError "VeloraDEX API request failed") ∧
    (∀ e : JsError, (∀ response, e ≠ JsError.axiosError (some response)) →
      unwrapAxiosError e = e) := by
  refine ⟨?_, ?_, ?_, ?_, ?_, ?_⟩
  · intro dir sdk request e h
    exact catchAxios_error _ e h
  · intro dir sdk request e h
    exact catchAxios_error _ e h
  · intro response m hm hne
    simp [unwrapAxiosError, apiErrorMessage, jsOrStr, hm, hne]
  · intro response em hmf hem hne
    rcases hd : response.data.bind ApiErrorData.message with _ | m
    · simp [unwrapAxiosError, apiErrorMessage, jsOrStr, hd, hem, hne]
    · rw [hd] at hmf
      simp only [truthyOptStr, Bool.not_eq_false'] at hmf
      have hm : m = "" := by simpa using hmf
      subst hm
      simp [unwrapAxiosError, apiErrorMessage, jsOrStr, hd, hem, hne]
  · intro response hmf hef
    rcases hd : response.data.bind ApiErrorData.message with _ | m <;>
      rcases he : response.data.bind ApiErrorData.errorField with _ | em <;>
        rw [hd] at hmf <;> rw [he] at hef <;>
          simp only [truthyOptStr, Bool.not_eq_false'] at hmf hef
    · simp [unwrapAxiosError, apiErrorMessage, jsOrStr, hd, he]
    · have : em = "" := by simpa using hef
      subst this
      simp [unwrapAxiosError, apiErrorMessage, jsOrStr, hd, he]
    · have : m = "" := by simpa using hmf
      subst this
      simp [unwrapAxiosError, apiErrorMessage, jsOrStr, hd, he]
    · have h1 : m = "" := by simpa using hmf
      have h2 : em = "" := by simpa using hef
      subst h1; subst h2
      simp [unwrapAxiosError, apiErrorMessage, jsOrStr, hd, he]
  · intro e he
    cases e with
    | jsError m => rfl
    | axiosError response =>
      cases response with
      | none => rfl
      | some r => exact absurd rfl (he r)

/-- The structured transport failure the pricing collaborator raises in the
witness run. -/
def axiosRespW : AxiosResponse :=
  { data := some { message := some "ERROR: Not enough liquidity for this trade",
                   errorField := none } }

/-- A collaborator whose pricing call raises the structured transport error. -/
def sdkAxios : SdkModel :=
  { getQuote := fun _ => Except.error (JsError.axiosError (some axiosRespW))
    getSpender := Except.ok spenderW
    buildTx := fun _ => Except.ok (some txpW) }

/-- C9 witness: the surfaced error text of the concrete failing run equals the
embedded API message, not a generic transport string. -/
theorem external_api_error_surfacing_witness :
    buildSwapTransaction dirW sdkAxios reqW =
      Except.error (JsError.jsError "ERROR: Not enough liquidity for this trade") := by
  have h1 := external_api_error_surfacing.1 dirW sdkAxios reqW
    (JsError.axiosError (some axiosRespW)) (by rfl)
  have h2 := external_api_error_surfacing.2.2.1 axiosRespW
    "ERROR: Not enough liquidity for this trade" (by rfl) (by decide)
  rw [h1, h2]

/-! ## C5: arithmetic facts about digit strings -/

theorem decDigitsVal_foldl (l : List Char) (a : Nat) :
    l.foldl (fun a c => a * 10 + digitVal c) a = a * 10 ^ l.length + decDigitsVal l := by
  induction l generalizing a with
  | nil => simp [decDigitsVal]
  | cons c cs ih =>
    show List.foldl _ (a * 10 + digitVal c) cs = _
    rw [ih (a * 10 + digitVal c)]
    have hc : decDigitsVal (c :: cs) = digitVal c * 10 ^ cs.length + decDigitsVal cs := by
      show List.foldl _ (0 * 10 + digitVal c) cs = _
      rw [ih (0 * 10 + digitVal c)]
      ring_nf
    rw [hc]
    simp [List.length_cons]
    ring

theorem decDigitsVal_append (l1 l2 : List Char) :
    decDigitsVal (l1 ++ l2) = decDigitsVal l1 * 10 ^ l2.length + decDigitsVal l2 := by
  show List.foldl _ 0 (l1 ++ l2) = _
  rw [List.foldl_append]
  exact decDigitsVal_foldl l2 _

theorem decDigitsVal_replicate_zero (k : Nat) :
    decDigitsVal (List.replicate k '0') = 0 := by
  induction k with
  | zero => rfl
  | succ n ih =>
    rw [List.replicate_succ]
    show List.foldl _ (0 * 10 + digitVal '0') (List.replicate n '0') = 0
    have : (0 : Nat) * 10 + digitVal '0' = 0 := by decide
    rw [this]
    exact ih

theorem dropTrailingZeros_spec (l : List Char) :
    ∃ k, l = dropTrailingZeros l ++ List.replicate k '0' := by
  induction l with
  | nil => exact ⟨0, rfl⟩
  | cons c cs ih =>
    obtain ⟨k, hk⟩ := ih
    show ∃ m, c :: cs = (match dropTrailingZeros cs with
      | [] => if c = '0' then [] else [c]
      | r => c :: r) ++ List.replicate m '0'
    cases hr : dropTrailingZeros cs with
    | nil =>
      rw [hr] at hk
      simp only [List.nil_append] at hk
      by_cases hc : c = '0'
      · refine ⟨k + 1, ?_⟩
        simp only [hc, if_pos rfl, List.nil_append]
        rw [List.replicate_succ]
        exact congrArg ('0' :: ·) hk
      · refine ⟨k, ?_⟩
        simp only [if_neg hc, List.cons_append, List.nil_append]
        exact congrArg (c :: ·) hk
    | cons r rs =>
      refine ⟨k, ?_⟩
      rw [hr] at hk
      simp only [List.cons_append]
      exact congrArg (c :: ·) hk

theorem dropTrailingZeros_length_le (l : List Char) :
    (dropTrailingZeros l).length ≤ l.length := by
  obtain ⟨k, hk⟩ := dropTrailingZeros_spec l
  have h : l.length = (dropTrailingZeros l).length + k := by
    conv_lhs => rw [hk]
    simp [List.length_append]
  omega

/-- Exact base-unit conversion: on a decimal string matching the guard whose
fraction fits within `d` digits (and which has at least one digit), viem's
`parseUnits` succeeds, and the produced base-unit integer divided by `10 ^ d`
is exactly the decimal string's value. -/
theorem parseUnits_exact (a : String) (d : Nat) (neg : Bool) (I F : List Char)
    (hdec : decomposeAmount a = some (neg, I, F))
    (hne : I ≠ [] ∨ F ≠ [])
    (hlen : F.length ≤ d) :
    ∃ n : Int, parseUnits a d = some n ∧
      (n : ℚ) / 10 ^ d =
        (if neg then (-1 : ℚ) else 1) *
          ((decDigitsVal I : ℚ) + (decDigitsVal F : ℚ) / 10 ^ F.length) := by
  by_cases hd : d = 0
  · subst hd
    have hF : F = [] := List.eq_nil_of_length_eq_zero (Nat.le_zero.mp hlen)
    subst hF
    have hI : I ≠ [] := by
      rcases hne with h | h
      · exact h
      · exact absurd rfl h
    have hIe : I.isEmpty = false := by
      cases I with
      | nil => exact absurd rfl hI
      | cons c cs => rfl
    refine ⟨intSign neg (decDigitsVal I), ?_, ?_⟩
    · simp [parseUnits, hdec, dropTrailingZeros, roundsUpToOne, hIe]
    · cases neg <;> simp [intSign, decDigitsVal]
  · have hdpos : 0 < d := Nat.pos_of_ne_zero hd
    obtain ⟨k, hkF⟩ := dropTrailingZeros_spec F
    have hlF : F.length = (dropTrailingZeros F).length + k := by
      conv_lhs => rw [hkF]
      simp [List.length_append]
    have hlF2 : (dropTrailingZeros F).length ≤ d := by omega
    have hnotlt : ¬ d < (dropTrailingZeros F).length := by omega
    have hplen :
        (dropTrailingZeros F ++ List.replicate (d - (dropTrailingZeros F).length) '0').length =
          d := by
      simp only [List.length_append, List.length_replicate]
      omega
    have hpv :
        decDigitsVal
            (dropTrailingZeros F ++ List.replicate (d - (dropTrailingZeros F).length) '0') =
          decDigitsVal (dropTrailingZeros F) * 10 ^ (d - (dropTrailingZeros F).length) := by
      rw [decDigitsVal_append, decDigitsVal_replicate_zero, List.length_replicate]
      omega
    have hFv : decDigitsVal F = decDigitsVal (dropTrailingZeros F) * 10 ^ k := by
      conv_lhs => rw [hkF]
      rw [decDigitsVal_append, decDigitsVal_replicate_zero, List.length_replicate]
      omega
    refine ⟨intSign neg (decDigitsVal I * 10 ^ d +
        decDigitsVal (dropTrailingZeros F) * 10 ^ (d - (dropTrailingZeros F).length)),
      ?_, ?_⟩
    · simp only [parseUnits, hdec]
      rw [if_neg hd, if_neg hnotlt, hplen, hpv]
    · obtain ⟨m, hm⟩ : ∃ m, d = (dropTrailingZeros F).length + m :=
        ⟨d - (dropTrailingZeros F).length, by omega⟩
      have hdm : d - (dropTrailingZeros F).length = m := by omega
    -- read both sides as rationals over a common power of ten
      rw [hFv, hdm, hlF, hm]
      have h10 : (10 : ℚ) ≠ 0 := by norm_num
      cases neg <;>
        simp only [intSign, if_true, if_false, Bool.false_eq_true, ite_false, ite_true] <;>
          push_cast <;> field_simp <;> ring

/-- If the guard matches with no digits at all, the unsigned body was empty or
a lone dot. -/
theorem decomposeDigitsAux_nil_nil (cs : List Char)
    (h : decomposeDigitsAux cs = some ([], [])) : cs = [] ∨ cs = ['.'] := by
  have hsplit := List.takeWhile_append_dropWhile (p := isDigitChar) (l := cs)
  simp only [decomposeDigitsAux] at h
  split at h
  next hemp =>
    simp only [Option.some.injEq, Prod.mk.injEq] at h
    left
    have hrest : cs.dropWhile isDigitChar = [] := by simpa using hemp
    rw [← hsplit, h.1, hrest]
    rfl
  next hemp =>
    split at h
    next hdot =>
      simp only [Option.some.injEq, Prod.mk.injEq] at h
      right
      have hne : cs.dropWhile isDigitChar ≠ [] := by
        intro hh
        rw [hh] at hemp
        simp at hemp
      obtain ⟨c0, t0, hct⟩ := List.exists_cons_of_ne_nil hne
      have hc0 : c0 = '.' := by
        have hh := (Bool.and_eq_true _ _).mp hdot |>.1
        rw [hct] at hh
        simpa using hh
      have ht0 : t0 = [] := by
        have hh := h.2
        rw [hct] at hh
        simpa using hh
      rw [← hsplit, h.1, hct, hc0, ht0]
      rfl
    next => exact absurd h (by simp)

/-- The only strings the viem guard accepts with no digits at all: empty,
lone sign, lone dot, sign-dot.  (JS `Number` maps the last three to NaN and
the first to 0, so the validator rejects each of them as an amount.) -/
theorem decomposeAmount_no_digits (a : String) (neg : Bool)
    (h : decomposeAmount a = some (neg, [], [])) :
    a = "" ∨ a = "-" ∨ a = "." ∨ a = "-." := by
  simp only [decomposeAmount, Option.map_eq_some'] at h
  obtain ⟨p, hp, hfp⟩ := h
  have hp1 : p.1 = [] := by
    have := congrArg (fun x => x.2.1) hfp
    simpa using this
  have hp2 : p.2 = [] := by
    have := congrArg (fun x => x.2.2) hfp
    simpa using this
  have hpp : p = ([], []) := by
    cases p
    simp_all
  rw [hpp] at hp
  by_cases hneg : (a.toList.headD ' ' == '-') = true
  · rw [if_pos hneg] at hp
    have htail := decomposeDigitsAux_nil_nil _ hp
    have hnil : a.toList ≠ [] := by
      intro hh
      rw [hh] at hneg
      simp at hneg
    obtain ⟨c0, t0, hct⟩ := List.exists_cons_of_ne_nil hnil
    have hc0 : c0 = '-' := by
      rw [hct] at hneg
      simpa using hneg
    have ht0 : a.toList.tail = t0 := by
      rw [hct]
      rfl
    rw [ht0] at htail
    rcases htail with ht | ht
    · right; left
      have : a.toList = ['-'] := by rw [hct, hc0, ht]
      cases a
      simp only [String.toList] at this
      simp_all
    · right; right; right
      have : a.toList = ['-', '.'] := by rw [hct, hc0, ht]
      cases a
      simp only [String.toList] at this
      simp_all
  · rw [if_neg hneg] at hp
    have htail := decomposeDigitsAux_nil_nil _ hp
    rcases htail with ht | ht
    · left
      cases a
      simp only [String.toList] at ht
      simp_all
    · right; right; left
      cases a
      simp only [String.toList] at ht
      simp_all

/-- The amount check's verdict enters the validator's error list (the list is
the concatenation of the checks, the amount check first). -/
theorem amount_error_mem (dir : Directory) (p : SwapRequest)
    (h : amountErrors p.amount = ["Invalid amount: must be a positive number"]) :
    "Invalid amount: must be a positive number" ∈ (validateSwapRequest dir p).errors := by
  show "Invalid amount: must be a positive number" ∈
    amountErrors p.amount ++ fromTokenErrors p.fromToken ++ toTokenErrors p.toToken ++
      fromAddressErrors p.fromAddress ++ chainErrors p.fromChain ++
      tokenSupportErrors dir p.fromChain p.fromToken ++
      tokenSupportErrors dir p.fromChain p.toToken
  simp [h]

/-- C5: converting an amount string to a base-unit integer string
(`getTokenAmount` via `parseUnits`) and interpreting that result back against
the resolved decimal count recovers the amount exactly whenever the amount is
expressible with that many decimals (fraction no longer than `d`); and every
amount string that is not numeric is rejected before conversion completes —
strings failing the numeric guard make `getTokenAmount` throw the
`AmountParseError`, and the remaining digit-less strings (empty, `-`, `.`,
`-.`) are rejected by the validator's amount check. -/
theorem getTokenAmount_roundtrip :
    (∀ (a : String) (d : Nat) (neg : Bool) (I F : List Char),
      decomposeAmount a = some (neg, I, F) → (I ≠ [] ∨ F ≠ []) → F.length ≤ d →
      ∃ n : Int, parseUnits a d = some n ∧
        (n : ℚ) / 10 ^ d =
          (if neg then (-1 : ℚ) else 1) *
            ((decDigitsVal I : ℚ) + (decDigitsVal F : ℚ) / 10 ^ F.length)) ∧
    (∀ (dir : Directory) (a chainName tokenSymbol : String) (n : Int),
      parseUnits a (getTokenDecimalsForChain dir chainName tokenSymbol) = some n →
      getTokenAmount dir a chainName tokenSymbol = Except.ok (toString n)) ∧
    (∀ (dir : Directory) (a chainName tokenSymbol : String),
      decomposeAmount a = none →
      getTokenAmount dir a chainName tokenSymbol =
        Except.error (JsError.jsError ("Failed to parse token amount: " ++ a))) ∧
    (∀ (a : String) (neg : Bool), decomposeAmount a = some (neg, [], []) →
      ∀ (dir : Directory) (p : SwapRequest), p.amount = a →
        "Invalid amount: must be a positive number" ∈ (validateSwapRequest dir p).errors) := by
  refine ⟨parseUnits_exact, ?_, ?_, ?_⟩
  · intro dir a chainName tokenSymbol n h
    simp only [getTokenAmount, h]
  · intro dir a chainName tokenSymbol h
    simp only [getTokenAmount, parseUnits, h]
  · intro a neg h dir p hpa
    apply amount_error_mem
    rw [hpa]
    rcases decomposeAmount_no_digits a neg h with rfl | rfl | rfl | rfl <;> decide

/-- C5 witness: `"1.5"` at 6 decimals round-trips exactly; the hex-style
string `"0x10"` (numeric for the validator but not for the conversion guard)
raises the `AmountParseError`; and the digit-less `"-."` is caught by the
validator's amount check. -/
theorem getTokenAmount_roundtrip_witness :
    (∃ n : Int, parseUnits "1.5" 6 = some n ∧
      (n : ℚ) / 10 ^ 6 =
        (if false then (-1 : ℚ) else 1) *
          ((decDigitsVal ['1'] : ℚ) + (decDigitsVal ['5'] : ℚ) / 10 ^ (['5'] : List Char).length)) ∧
    getTokenAmount dirW "0x10" "ETHEREUM" "USDC" =
      Except.error (JsError.jsError "Failed to parse token amount: 0x10") ∧
    "Invalid amount: must be a positive number" ∈
      (validateSwapRequest dirW { reqW with amount := "-." }).errors :=
  ⟨getTokenAmount_roundtrip.1 "1.5" 6 false ['1'] ['5'] (by decide) (Or.inl (by decide))
      (by decide),
   getTokenAmount_roundtrip.2.2.1 dirW "0x10" "ETHEREUM" "USDC" (by decide),
   getTokenAmount_roundtrip.2.2.2 "-." true (by decide) dirW _ rfl⟩
